import Mathlib

/-!
Shallow embedding of `src/Optimal_Currency_Hedge_Ratio.py`.

The input series are array-likes of Python floats; the embedding idealises
IEEE doubles as exact rationals (`ℚ`), so every statement about concrete
values is exact rather than up-to-rounding.  Quantities produced through a
square root (`np.std`, `np.sqrt`) live in `ℝ` via `Real.sqrt`.

Numpy semantics captured here:
  * `np.var xs`  = mean of squared deviations from the mean, divisor `N`
    (population convention, `ddof = 0` default);
  * `np.std xs`  = square root of `np.var xs`;
  * `np.cov(xs, ys)[0,1]` = sum of deviation products divided by `N - 1`
    (sample convention, `ddof = 1` default), and `np.cov` raises a
    `ValueError` when the two rows have different lengths — the only
    exception the pipeline can raise;
  * float division by zero and `np.sqrt` of a negative number produce
    IEEE special values (inf/NaN) with at most a runtime *warning*, never
    an exception; the embedding renders those degenerate divisions with
    Lean's `x / 0 = 0` and `Real.sqrt x = 0` for `x < 0` conventions, and
    no theorem below reads a value off such a degenerate branch except to
    observe that the code returns instead of raising.
-/

namespace HedgeRatio

/-- The one exception `calculate_optimal_hedge_ratio` can propagate:
numpy's `ValueError`, raised by `np.cov` on rows of different lengths. -/
inductive NumpyError where
  | valueError
deriving DecidableEq

/-- The nested `hedge_effectiveness` dictionary of the returned result. -/
structure HedgeEffectiveness where
  rsquared : ℝ
  variance_reduction : ℚ
  var_reduction : ℝ

/-- The dictionary returned by `calculate_optimal_hedge_ratio`. -/
structure HedgeResult where
  optimal_hedge_ratio : ℚ
  portfolio_variance : ℚ
  correlation : ℝ
  hedge_effectiveness : HedgeEffectiveness
  hedged_variance : ℚ
  unhedged_variance : ℚ

/-- Mean of a series, `xs.mean()`. -/
def npMean (xs : List ℚ) : ℚ := xs.sum / xs.length

/-- Population variance, `np.var xs` (divisor `N`). -/
def npVar (xs : List ℚ) : ℚ :=
  ((xs.map fun x => (x - npMean xs) ^ 2).sum) / xs.length

/-- Standard deviation, `np.std xs`. -/
noncomputable def npStd (xs : List ℚ) : ℝ := Real.sqrt ((npVar xs : ℝ))

/-- Sum of products of deviations of the paired series. -/
def covSum (xs ys : List ℚ) : ℚ :=
  ((xs.zip ys).map fun p => (p.1 - npMean xs) * (p.2 - npMean ys)).sum

/-- The off-diagonal entry `np.cov(xs, ys)[0, 1]`: numpy's default is
`ddof = 1`, so the divisor is `N - 1`, not `N`. -/
def npCovVal (xs ys : List ℚ) : ℚ := covSum xs ys / ((xs.length : ℚ) - 1)

/-- `np.cov(xs, ys)` itself: raises `ValueError` when the rows cannot be
stacked (different lengths), otherwise yields the off-diagonal entry. -/
def npCov (xs ys : List ℚ) : Except NumpyError ℚ :=
  if xs.length = ys.length then .ok (npCovVal xs ys) else .error .valueError

/-- The double `scipy.stats.norm.ppf 0.95` evaluates to; only its sign
matters to any statement below. -/
def z_score : ℝ := 1.6448536269514722

/-- `optimal_hedge_ratio = covariance / var_hedged` (line 33). -/
def optimal_hedge_ratio (xs ys : List ℚ) : ℚ := npCovVal xs ys / npVar xs

/-- `portfolio_variance` (lines 36-40). -/
def portfolio_variance (xs ys : List ℚ) : ℚ :=
  npVar ys + (optimal_hedge_ratio xs ys) ^ 2 * npVar xs
    - 2 * optimal_hedge_ratio xs ys * npCovVal xs ys

/-- `correlation = covariance / (np.std hedged * np.std unhedged)` (line 43). -/
noncomputable def correlation (xs ys : List ℚ) : ℝ :=
  (npCovVal xs ys : ℝ) / (npStd xs * npStd ys)

/-- `hedge_effectiveness_rsquared = correlation ** 2` (line 47). -/
noncomputable def rsquared (xs ys : List ℚ) : ℝ := correlation xs ys ^ 2

/-- `variance_reduction = (var_unhedged - portfolio_variance) / var_unhedged`
(line 50). -/
def variance_reduction (xs ys : List ℚ) : ℚ :=
  (npVar ys - portfolio_variance xs ys) / npVar ys

/-- `var_unhedged_position = -z_score * np.sqrt var_unhedged` (line 56). -/
noncomputable def var_unhedged_position (xs ys : List ℚ) : ℝ :=
  -z_score * Real.sqrt ((npVar ys : ℝ))

/-- `var_hedged_portfolio = -z_score * np.sqrt portfolio_variance` (line 57). -/
noncomputable def var_hedged_portfolio (xs ys : List ℚ) : ℝ :=
  -z_score * Real.sqrt ((portfolio_variance xs ys : ℝ))

/-- `var_reduction` (line 58). -/
noncomputable def var_reduction (xs ys : List ℚ) : ℝ :=
  (var_unhedged_position xs ys - var_hedged_portfolio xs ys)
    / var_unhedged_position xs ys

/-- The whole pipeline (lines 22-71).  The only statement that can raise is
`np.cov`; every other step is numpy float arithmetic, which warns but never
raises, so the result dictionary is assembled whenever the lengths match. -/
noncomputable def calculate_optimal_hedge_ratio (hedged unhedged : List ℚ) :
    Except NumpyError HedgeResult :=
  match npCov hedged unhedged with
  | .error e => .error e
  | .ok _ =>
    .ok
      { optimal_hedge_ratio := optimal_hedge_ratio hedged unhedged
        portfolio_variance := portfolio_variance hedged unhedged
        correlation := correlation hedged unhedged
        hedge_effectiveness :=
          { rsquared := rsquared hedged unhedged
            variance_reduction := variance_reduction hedged unhedged
            var_reduction := var_reduction hedged unhedged }
        hedged_variance := npVar hedged
        unhedged_variance := npVar unhedged }

/-- Population covariance as the specification words it: the same sum of
deviation products, but with divisor `N` (the spec's convention, to be
compared with `npCovVal`). -/
def covPop (xs ys : List ℚ) : ℚ := covSum xs ys / (xs.length : ℚ)

/-- Population variance as the specification words it: mean of squared
deviations from the mean, divisor `N` (to be compared with `npVar`). -/
def varPop (xs : List ℚ) : ℚ :=
  ((xs.map fun x => (x - npMean xs) ^ 2).sum) / xs.length

/-! ### Helper lemmas -/

theorem calculate_eq_ok (xs ys : List ℚ) (h : xs.length = ys.length) :
    calculate_optimal_hedge_ratio xs ys =
      .ok
        { optimal_hedge_ratio := optimal_hedge_ratio xs ys
          portfolio_variance := portfolio_variance xs ys
          correlation := correlation xs ys
          hedge_effectiveness :=
            { rsquared := rsquared xs ys
              variance_reduction := variance_reduction xs ys
              var_reduction := var_reduction xs ys }
          hedged_variance := npVar xs
          unhedged_variance := npVar ys } := by
  simp [calculate_optimal_hedge_ratio, npCov, h]

theorem npVar_12345 : npVar [1, 2, 3, 4, 5] = 2 := by
  norm_num [npVar, npMean]

theorem npCovVal_12345 : npCovVal [1, 2, 3, 4, 5] [1, 2, 3, 4, 5] = 5 / 2 := by
  norm_num [npCovVal, covSum, npMean, List.zip]

theorem ratio_12345 :
    optimal_hedge_ratio [1, 2, 3, 4, 5] [1, 2, 3, 4, 5] = 5 / 4 := by
  rw [optimal_hedge_ratio, npCovVal_12345, npVar_12345]; norm_num

theorem pv_12345 :
    portfolio_variance [1, 2, 3, 4, 5] [1, 2, 3, 4, 5] = -(9 / 8) := by
  rw [portfolio_variance, ratio_12345, npVar_12345, npCovVal_12345]; norm_num

theorem npStd_12345 : npStd [1, 2, 3, 4, 5] = Real.sqrt 2 := by
  rw [npStd, npVar_12345]; norm_num

theorem correlation_12345 :
    correlation [1, 2, 3, 4, 5] [1, 2, 3, 4, 5] = 5 / 4 := by
  rw [correlation, npCovVal_12345, npStd_12345,
    Real.mul_self_sqrt (by norm_num : (0 : ℝ) ≤ 2)]
  norm_num

/-! ### Claim C1: divisor conventions of the second moments -/

/-- Claim C1 is false as stated: on the series `[1,2,3,4,5]` paired with
itself, the covariance the code computes (`np.cov`, divisor `N - 1`, value
`5/2`) differs from the population covariance with divisor `N` (value `2`),
so not every second moment uses the population divisor. -/
theorem C1_counterexample :
    npCovVal [1, 2, 3, 4, 5] [1, 2, 3, 4, 5] ≠
      covPop [1, 2, 3, 4, 5] [1, 2, 3, 4, 5] := by
  norm_num [npCovVal, covPop, covSum, npMean, List.zip]

/-- Claim C1, amended: the variances do use the population divisor `N`
(`np.var` default), but the covariance uses the sample divisor `N - 1`
(`np.cov` default), i.e. it is `N/(N-1)` times the population covariance. -/
theorem C1_divisors (xs ys : List ℚ) (h : 2 ≤ xs.length) :
    npVar xs = varPop xs ∧
      npCovVal xs ys =
        (xs.length : ℚ) / ((xs.length : ℚ) - 1) * covPop xs ys := by
  refine ⟨rfl, ?_⟩
  have hn : (2 : ℚ) ≤ (xs.length : ℚ) := by exact_mod_cast h
  have h0 : (xs.length : ℚ) ≠ 0 := by linarith
  have h1 : (xs.length : ℚ) - 1 ≠ 0 := by
    intro hc
    rw [sub_eq_zero] at hc
    rw [hc] at hn
    linarith
  rw [npCovVal, covPop]
  field_simp
  ring

/-- Witness for `C1_divisors` at the concrete pair `[1,2]`, `[3,5]`. -/
theorem C1_divisors_witness :
    npVar [1, 2] = varPop [1, 2] ∧
      npCovVal [1, 2] [3, 5] =
        (([1, 2] : List ℚ).length : ℚ) /
          ((([1, 2] : List ℚ).length : ℚ) - 1) * covPop [1, 2] [3, 5] :=
  C1_divisors [1, 2] [3, 5] (by norm_num)

/-! ### Claim C3: behaviour on constant (zero-variance) series -/

/-- Claim C3 is false as stated: on the spec's own degenerate scenario
(`hedged = [1,-1,1,-1,1]`, `unhedged = [1,1,1,1,1]`, a constant unhedged
series with `var_u = 0`) the code returns a result dictionary instead of
raising; no `DegenerateInputError` exists in the code. -/
theorem C3_counterexample :
    (calculate_optimal_hedge_ratio [1, -1, 1, -1, 1]
        [1, 1, 1, 1, 1]).toOption.isSome = true := by
  rw [calculate_eq_ok [1, -1, 1, -1, 1] [1, 1, 1, 1, 1] rfl]
  rfl

/-- Claim C3, amended: the code never raises on constant series — it defines
no `DegenerateInputError`, performs the divisions anyway (IEEE arithmetic
yields inf/NaN with at most a runtime warning), and returns a result on
every pair of equal-length series, constant or not. -/
theorem C3_no_degenerate_error (xs ys : List ℚ) (h : xs.length = ys.length) :
    (calculate_optimal_hedge_ratio xs ys).toOption.isSome = true := by
  rw [calculate_eq_ok _ _ h]
  rfl

/-- Witness for `C3_no_degenerate_error` at a constant hedged series
(`var_h = 0`). -/
theorem C3_no_degenerate_error_witness :
    (calculate_optimal_hedge_ratio [2, 2, 2] [1, 2, 3]).toOption.isSome =
      true :=
  C3_no_degenerate_error [2, 2, 2] [1, 2, 3] rfl

/-! ### Claim C4: identical input series -/

/-- Claim C4 is false as stated: on `hedged = unhedged = [1,2,3,4,5]` the
returned `optimal_hedge_ratio` is `5/4`, not `1.0` (the `N/(N-1)` factor
from `np.cov`'s sample divisor does not cancel against `np.var`'s
population divisor). -/
theorem C4_counterexample :
    (calculate_optimal_hedge_ratio [1, 2, 3, 4, 5]
          [1, 2, 3, 4, 5]).toOption.map
        (fun r => r.optimal_hedge_ratio) ≠ some 1 := by
  rw [calculate_eq_ok _ _ rfl]
  simp only [Except.toOption, Option.map_some]
  rw [ratio_12345]
  intro hc
  exact absurd (Option.some_inj.mp hc) (by norm_num)

/-- Claim C4, amended: on identical non-constant series `[1,2,3,4,5]` the
code returns `optimal_hedge_ratio = 5/4`, `correlation = 5/4`,
`rsquared = 25/16`, `portfolio_variance = -9/8` (negative, not ≈ 0), and
`variance_reduction = 25/16` (not ≈ 1) — each value inflated by the
`N/(N-1) = 5/4` divisor mismatch. -/
theorem C4_identical_values :
    ∃ r, calculate_optimal_hedge_ratio [1, 2, 3, 4, 5] [1, 2, 3, 4, 5] =
        .ok r ∧
      r.optimal_hedge_ratio = 5 / 4 ∧
      r.correlation = 5 / 4 ∧
      r.hedge_effectiveness.rsquared = 25 / 16 ∧
      r.portfolio_variance = -(9 / 8) ∧
      r.hedge_effectiveness.variance_reduction = 25 / 16 := by
  refine ⟨_, calculate_eq_ok _ _ rfl, ratio_12345, correlation_12345, ?_, pv_12345, ?_⟩
  · show rsquared _ _ = 25 / 16
    rw [rsquared, correlation_12345]
    norm_num
  · show variance_reduction _ _ = 25 / 16
    rw [variance_reduction, pv_12345, npVar_12345]
    norm_num

/-! ### Claim C5: input validation -/

/-- Claim C5 is false as stated: empty input sequences do not fail with
`InvalidInputError` (no such check, or error type, exists in the code) —
the computation runs and returns a result dictionary. -/
theorem C5_counterexample :
    (calculate_optimal_hedge_ratio [] []).toOption.isSome = true := by
  rw [calculate_eq_ok _ _ rfl]
  rfl

/-- Claim C5, amended: the code performs no input validation. The only
error it can raise is numpy's `ValueError` from `np.cov` on mismatched
lengths — raised in the middle of moment computation, not before it; empty
sequences and non-finite values are not rejected (they propagate as NaN in
IEEE arithmetic), and the confidence level is hardcoded to `0.95`, so no
out-of-range check exists. -/
theorem C5_no_validation (xs ys : List ℚ) :
    calculate_optimal_hedge_ratio xs ys = .error .valueError ↔
      xs.length ≠ ys.length := by
  by_cases h : xs.length = ys.length
  · simp [calculate_eq_ok _ _ h, h]
  · simp [calculate_optimal_hedge_ratio, npCov, h]

/-! ### Claim C6: sign of the returned portfolio variance -/

/-- Claim C6 is false as stated: the valid input pair
`hedged = unhedged = [1,2,3,4,5]` (equal length ≥ 2, finite, non-constant)
yields `portfolio_variance = -9/8`, negative far beyond any 1e-9
tolerance. -/
theorem C6_counterexample :
    ¬ (-(1 / 1000000000 : ℚ) ≤
        portfolio_variance [1, 2, 3, 4, 5] [1, 2, 3, 4, 5]) := by
  rw [pv_12345]
  norm_num

/-- Claim C6, amended: `portfolio_variance` can come out negative beyond
any tolerance, and the code has no `NumericalAnomalyWarning` (or any
warning) mechanism: the raw negative value is placed in the returned
dictionary unchanged — neither clamped nor reported. -/
theorem C6_negative_returned_raw :
    (calculate_optimal_hedge_ratio [1, 2, 3, 4, 5]
          [1, 2, 3, 4, 5]).toOption.map
        (fun r => r.portfolio_variance) =
      some (portfolio_variance [1, 2, 3, 4, 5] [1, 2, 3, 4, 5]) ∧
      portfolio_variance [1, 2, 3, 4, 5] [1, 2, 3, 4, 5] <
        -(1 / 1000000000 : ℚ) := by
  constructor
  · rw [calculate_eq_ok _ _ rfl]
    rfl
  · rw [pv_12345]
    norm_num

/-! ### Claim C2: range of the correlation -/

theorem map_sum_eq_range (f : ℚ → ℚ) (xs : List ℚ) :
    (xs.map f).sum = ∑ i ∈ Finset.range xs.length, f (xs.getD i 0) := by
  induction xs with
  | nil => simp
  | cons x xs ih =>
    simp only [List.map_cons, List.sum_cons, List.length_cons,
      Finset.sum_range_succ', List.getD_cons_succ, List.getD_cons_zero, ih]
    exact add_comm _ _

theorem zip_sum_eq_range (f : ℚ → ℚ → ℚ) (xs ys : List ℚ)
    (h : xs.length = ys.length) :
    ((xs.zip ys).map fun p => f p.1 p.2).sum =
      ∑ i ∈ Finset.range xs.length, f (xs.getD i 0) (ys.getD i 0) := by
  induction xs generalizing ys with
  | nil => simp
  | cons x xs ih =>
    cases ys with
    | nil => simp at h
    | cons y ys =>
      have h2 : xs.length = ys.length := by simpa using h
      simp only [List.zip_cons_cons, List.map_cons, List.sum_cons,
        List.length_cons, Finset.sum_range_succ', List.getD_cons_succ,
        List.getD_cons_zero, ih ys h2]
      exact add_comm _ _

/-- Cauchy-Schwarz for the deviation sums of the two series. -/
theorem covSum_sq_le (xs ys : List ℚ) (h : xs.length = ys.length) :
    covSum xs ys ^ 2 ≤
      ((xs.map fun x => (x - npMean xs) ^ 2).sum) *
        ((ys.map fun y => (y - npMean ys) ^ 2).sum) := by
  rw [covSum,
    zip_sum_eq_range (fun a b => (a - npMean xs) * (b - npMean ys)) xs ys h,
    map_sum_eq_range, map_sum_eq_range, ← h]
  exact Finset.sum_mul_sq_le_sq_mul_sq (Finset.range xs.length)
    (fun i => xs.getD i 0 - npMean xs) (fun i => ys.getD i 0 - npMean ys)

theorem sq_dev_sum_nonneg (xs : List ℚ) :
    0 ≤ (xs.map fun x => (x - npMean xs) ^ 2).sum := by
  apply List.sum_nonneg
  intro a ha
  obtain ⟨x, -, rfl⟩ := List.mem_map.mp ha
  exact sq_nonneg _

/-- Claim C2 is false as stated: on the equal-length pair
`[1,2,3,4,5]`, `[1,2,3,4,5]` the returned correlation is `5/4`, above `1`
by far more than the `1e-9` tolerance (`np.cov`'s `N-1` divisor against
`np.std`'s `N` divisor inflates the true coefficient by `N/(N-1)`). -/
theorem C2_counterexample :
    1 + (1 / 1000000000 : ℝ) <
      correlation [1, 2, 3, 4, 5] [1, 2, 3, 4, 5] := by
  rw [correlation_12345]
  norm_num

/-- Claim C2, amended: for equal-length series of length `N ≥ 2` whose
variances are both nonzero, the returned correlation lies in
`[-N/(N-1), N/(N-1)]`: it is `N/(N-1)` times the true correlation
coefficient, which Cauchy-Schwarz bounds by one; the `[-1, 1] ± 1e-9` range
of the claim is exceeded on identical series. -/
theorem C2_correlation_bound (xs ys : List ℚ) (hlen : 2 ≤ xs.length)
    (h : xs.length = ys.length) (hx : 0 < npVar xs) (hy : 0 < npVar ys) :
    ∃ r, calculate_optimal_hedge_ratio xs ys = .ok r ∧
      |r.correlation| ≤ (xs.length : ℝ) / ((xs.length : ℝ) - 1) := by
  refine ⟨_, calculate_eq_ok _ _ h, ?_⟩
  show |correlation xs ys| ≤ _
  set qx : ℚ := (xs.map fun x => (x - npMean xs) ^ 2).sum with hqx_def
  set qy : ℚ := (ys.map fun y => (y - npMean ys) ^ 2).sum with hqy_def
  set s : ℚ := covSum xs ys with hs_def
  set n : ℝ := (xs.length : ℝ) with hn_def
  have hn2 : (2 : ℝ) ≤ n := by rw [hn_def]; exact_mod_cast hlen
  have hn0 : (0 : ℝ) < n := by linarith
  have hn1 : (0 : ℝ) < n - 1 := by linarith
  have hx' : (0 : ℝ) < (npVar xs : ℝ) := by exact_mod_cast hx
  have hy' : (0 : ℝ) < (npVar ys : ℝ) := by exact_mod_cast hy
  have varx : (npVar xs : ℝ) = (qx : ℝ) / n := by
    simp only [npVar, ← hqx_def]
    push_cast
    rfl
  have vary : (npVar ys : ℝ) = (qy : ℝ) / n := by
    simp only [npVar, ← hqy_def, ← h]
    push_cast
    rfl
  have hqx : (0 : ℝ) < (qx : ℝ) := by
    have h1 : (qx : ℝ) = (npVar xs : ℝ) * n := by
      rw [varx]; field_simp
    rw [h1]; exact mul_pos hx' hn0
  have hqy : (0 : ℝ) < (qy : ℝ) := by
    have h1 : (qy : ℝ) = (npVar ys : ℝ) * n := by
      rw [vary]; field_simp
    rw [h1]; exact mul_pos hy' hn0
  have hsx : 0 < Real.sqrt (qx : ℝ) := Real.sqrt_pos.mpr hqx
  have hsy : 0 < Real.sqrt (qy : ℝ) := Real.sqrt_pos.mpr hqy
  have prodstd : npStd xs * npStd ys =
      Real.sqrt (qx : ℝ) * Real.sqrt (qy : ℝ) / n := by
    rw [npStd, npStd, varx, vary, Real.sqrt_div hqx.le n,
      Real.sqrt_div hqy.le n, div_mul_div_comm, Real.mul_self_sqrt hn0.le]
  have corr_eq : correlation xs ys =
      (s : ℝ) * n / ((n - 1) * (Real.sqrt (qx : ℝ) * Real.sqrt (qy : ℝ))) := by
    rw [correlation, prodstd]
    simp only [npCovVal, ← hs_def]
    push_cast
    rw [← hn_def]
    field_simp
  have hcsq : ((s : ℝ)) ^ 2 ≤ (qx : ℝ) * (qy : ℝ) := by
    exact_mod_cast covSum_sq_le xs ys h
  have habs : |(s : ℝ)| ≤ Real.sqrt (qx : ℝ) * Real.sqrt (qy : ℝ) := by
    rw [← Real.sqrt_mul hqx.le]
    exact Real.abs_le_sqrt hcsq
  have hD : 0 < (n - 1) * (Real.sqrt (qx : ℝ) * Real.sqrt (qy : ℝ)) :=
    mul_pos hn1 (mul_pos hsx hsy)
  rw [corr_eq, abs_div, abs_of_pos hD, abs_mul, abs_of_pos hn0,
    div_le_div_iff₀ hD hn1]
  nlinarith [mul_le_mul_of_nonneg_right habs (mul_pos hn0 hn1).le,
    mul_pos hsx hsy]

/-- Witness for `C2_correlation_bound` on identical series `[1,2,3,4,5]`,
where the bound `5/4` is attained. -/
theorem C2_correlation_bound_witness :
    ∃ r, calculate_optimal_hedge_ratio [1, 2, 3, 4, 5] [1, 2, 3, 4, 5] =
        .ok r ∧
      |r.correlation| ≤
        (([1, 2, 3, 4, 5] : List ℚ).length : ℝ) /
          ((([1, 2, 3, 4, 5] : List ℚ).length : ℝ) - 1) :=
  C2_correlation_bound [1, 2, 3, 4, 5] [1, 2, 3, 4, 5] (by norm_num) rfl
    (by norm_num [npVar, npMean]) (by norm_num [npVar, npMean])

/-! ### Claim C7: minimum-variance property -/

/-- Claim C7: for valid inputs (equal lengths, non-constant hedged series so
that the hedge-ratio division is defined), the returned `portfolio_variance`
is at most the returned `unhedged_variance` — the hedge ratio is exactly the
minimiser of the quadratic the code evaluates, and indeed
`pv = var_u - cov² / var_h`. -/
theorem C7_portfolio_le_unhedged (xs ys : List ℚ) (h : xs.length = ys.length)
    (hv : 0 < npVar xs) :
    ∃ r, calculate_optimal_hedge_ratio xs ys = .ok r ∧
      r.portfolio_variance ≤ r.unhedged_variance := by
  refine ⟨_, calculate_eq_ok _ _ h, ?_⟩
  show portfolio_variance xs ys ≤ npVar ys
  have hv0 : npVar xs ≠ 0 := ne_of_gt hv
  have key : portfolio_variance xs ys =
      npVar ys - npCovVal xs ys ^ 2 / npVar xs := by
    rw [portfolio_variance, optimal_hedge_ratio]
    field_simp
    ring
  rw [key]
  have hq : 0 ≤ npCovVal xs ys ^ 2 / npVar xs := div_nonneg (sq_nonneg _) hv.le
  linarith

/-- Witness for `C7_portfolio_le_unhedged` at `[1,2,3]`, `[3,2,1]`. -/
theorem C7_portfolio_le_unhedged_witness :
    ∃ r, calculate_optimal_hedge_ratio [1, 2, 3] [3, 2, 1] = .ok r ∧
      r.portfolio_variance ≤ r.unhedged_variance :=
  C7_portfolio_le_unhedged [1, 2, 3] [3, 2, 1] rfl
    (by norm_num [npVar, npMean])

/-! ### Claim C9: rsquared is the square of correlation -/

/-- Claim C9: in every returned result, the `hedge_effectiveness.rsquared`
field is exactly the square of the `correlation` field (the code computes it
as `correlation ** 2`). -/
theorem C9_rsquared_eq_correlation_sq (xs ys : List ℚ)
    (h : xs.length = ys.length) :
    ∃ r, calculate_optimal_hedge_ratio xs ys = .ok r ∧
      r.hedge_effectiveness.rsquared = r.correlation ^ 2 :=
  ⟨_, calculate_eq_ok _ _ h, rfl⟩

/-- Witness for `C9_rsquared_eq_correlation_sq` at `[1,2]`, `[3,4]`. -/
theorem C9_rsquared_eq_correlation_sq_witness :
    ∃ r, calculate_optimal_hedge_ratio [1, 2] [3, 4] = .ok r ∧
      r.hedge_effectiveness.rsquared = r.correlation ^ 2 :=
  C9_rsquared_eq_correlation_sq [1, 2] [3, 4] rfl

/-! ### Claim C10: the z-score cancels out of var_reduction -/

/-- Claim C10: whenever the unhedged variance is positive and the computed
portfolio variance is non-negative, the returned `var_reduction` equals
`1 - sqrt (portfolio_variance / unhedged_variance)` — the normal-quantile
factor `z_score` cancels, so the value does not depend on the confidence
level. -/
theorem C10_var_reduction_formula (xs ys : List ℚ)
    (h : xs.length = ys.length) (hu : 0 < npVar ys)
    (hp : 0 ≤ portfolio_variance xs ys) :
    ∃ r, calculate_optimal_hedge_ratio xs ys = .ok r ∧
      r.hedge_effectiveness.var_reduction =
        1 - Real.sqrt ((portfolio_variance xs ys : ℝ) / (npVar ys : ℝ)) := by
  refine ⟨_, calculate_eq_ok _ _ h, ?_⟩
  show var_reduction xs ys = _
  have hz : z_score ≠ 0 := by rw [z_score]; norm_num
  have hu' : (0 : ℝ) < (npVar ys : ℝ) := by exact_mod_cast hu
  have hsu : 0 < Real.sqrt (npVar ys : ℝ) := Real.sqrt_pos.mpr hu'
  have hp' : (0 : ℝ) ≤ (portfolio_variance xs ys : ℝ) := by exact_mod_cast hp
  rw [var_reduction, var_unhedged_position, var_hedged_portfolio,
    Real.sqrt_div hp']
  field_simp
  ring

/-- Witness for `C10_var_reduction_formula` at `[1,2,3,4,5]`, `[1,3,2,5,4]`
(there `portfolio_variance = 0` and `npVar = 2`). -/
theorem C10_var_reduction_formula_witness :
    ∃ r, calculate_optimal_hedge_ratio [1, 2, 3, 4, 5] [1, 3, 2, 5, 4] =
        .ok r ∧
      r.hedge_effectiveness.var_reduction =
        1 - Real.sqrt
          ((portfolio_variance [1, 2, 3, 4, 5] [1, 3, 2, 5, 4] : ℝ) /
            (npVar [1, 3, 2, 5, 4] : ℝ)) :=
  C10_var_reduction_formula [1, 2, 3, 4, 5] [1, 3, 2, 5, 4] rfl
    (by norm_num [npVar, npMean])
    (by norm_num [portfolio_variance, optimal_hedge_ratio, npCovVal, covSum,
      npVar, npMean, List.zip])

end HedgeRatio
